import Mathlib

/-!
Verification of the MipMapGenerator repository core:
`Common/UtilNPP/ImageIO.h` (FreeImage-based host image loaders and savers) and
`src/MipMapChunk.h` (single mip level construction via the NPP resize
primitive).

Memory is modelled as byte maps `Nat → Nat` (flat byte offset to byte value).
A host or FreeImage pixel buffer is a record of width, height, pitch and such
a byte map; `memcpy` and the row-copy loops of the C++ are translated
literally over these maps.  The FreeImage codec and the NPP resize primitive
are external libraries: they are modelled as oracle functions carried in an
environment record, constrained only by documented contracts stated as
explicit hypotheses where a claim needs them.
-/

/-- One `memcpy(dst + dstOff, src + srcOff, n)` over byte maps: the
destination map updated on `[dstOff, dstOff + n)` with the corresponding
source bytes, unchanged elsewhere. -/
def memcpyBytes (dst src : Nat → Nat) (dstOff srcOff n : Nat) : Nat → Nat :=
  fun a => if dstOff ≤ a ∧ a < dstOff + n then src (srcOff + (a - dstOff)) else dst a

/-- The row-copy loops of `ImageIO.h`: iterations `0, 1, …, n-1`, iteration
`i` copying `len` bytes from `src` at offset `srcOff i` into the destination
at offset `dstOff i`.  `copyRows src srcOff dstOff len n dst` is the
destination byte map after the loop ran `n` iterations starting from `dst`. -/
def copyRows (src : Nat → Nat) (srcOff dstOff : Nat → Nat) (len : Nat) :
    Nat → (Nat → Nat) → Nat → Nat
  | 0, dst => dst
  | n + 1, dst =>
      memcpyBytes (copyRows src srcOff dstOff len n dst) src (dstOff n) (srcOff n) len

theorem memcpyBytes_in (dst src : Nat → Nat) (dstOff srcOff n k : Nat) (hk : k < n) :
    memcpyBytes dst src dstOff srcOff n (dstOff + k) = src (srcOff + k) := by
  unfold memcpyBytes
  have h1 : dstOff ≤ dstOff + k := Nat.le_add_right _ _
  have h2 : dstOff + k < dstOff + n := by omega
  simp only [h1, h2, and_self, if_true]
  congr 1
  omega

theorem memcpyBytes_out (dst src : Nat → Nat) (dstOff srcOff n a : Nat)
    (h : ¬(dstOff ≤ a ∧ a < dstOff + n)) :
    memcpyBytes dst src dstOff srcOff n a = dst a := by
  unfold memcpyBytes
  simp only [h, if_false]

/-- Bytes not covered by any of the `n` destination rows are untouched by the
copy loop. -/
theorem copyRows_outside (src : Nat → Nat) (srcOff dstOff : Nat → Nat) (len n : Nat)
    (dst : Nat → Nat) (a : Nat)
    (h : ∀ i, i < n → ¬(dstOff i ≤ a ∧ a < dstOff i + len)) :
    copyRows src srcOff dstOff len n dst a = dst a := by
  induction n with
  | zero => rfl
  | succ m ih =>
      unfold copyRows
      rw [memcpyBytes_out _ _ _ _ _ _ (h m (Nat.lt_succ_self m))]
      exact ih (fun i hi => h i (Nat.lt_succ_of_lt hi))

/-- Reading back byte `k` of destination row `i` after the copy loop yields
byte `k` of source row `i`, provided the destination row regions are pairwise
disjoint. -/
theorem copyRows_get (src : Nat → Nat) (srcOff dstOff : Nat → Nat) (len n : Nat)
    (dst : Nat → Nat) (i k : Nat)
    (hsep : ∀ i' j', i' < n → j' < n → i' ≠ j' → ∀ a, dstOff i' ≤ a →
      a < dstOff i' + len → ¬(dstOff j' ≤ a ∧ a < dstOff j' + len))
    (hi : i < n) (hk : k < len) :
    copyRows src srcOff dstOff len n dst (dstOff i + k) = src (srcOff i + k) := by
  induction n with
  | zero => omega
  | succ m ih =>
      unfold copyRows
      rcases Nat.lt_or_ge i m with him | him
      · have hout : ¬(dstOff m ≤ dstOff i + k ∧ dstOff i + k < dstOff m + len) :=
          hsep i m (Nat.lt_succ_of_lt him) (Nat.lt_succ_self m) (Nat.ne_of_lt him)
            (dstOff i + k) (Nat.le_add_right _ _) (by omega)
        rw [memcpyBytes_out _ _ _ _ _ _ hout]
        exact ih (fun i' j' hi' hj' => hsep i' j' (Nat.lt_succ_of_lt hi') (Nat.lt_succ_of_lt hj')) him
      · have hieq : i = m := by omega
        subst hieq
        exact memcpyBytes_in _ _ _ _ _ _ hk

/-- Destination rows laid out at offsets `p * f i` with row payload
`len ≤ p` and `f` injective on `[0, n)` are pairwise disjoint. -/
theorem rows_sep_of_mul (p len n : Nat) (f : Nat → Nat) (hlen : len ≤ p)
    (hinj : ∀ i j, i < n → j < n → i ≠ j → f i ≠ f j) :
    ∀ i j, i < n → j < n → i ≠ j → ∀ a, p * f i ≤ a →
      a < p * f i + len → ¬(p * f j ≤ a ∧ a < p * f j + len) := by
  intro i j hi hj hij a h1 h2 hc
  rcases hc with ⟨h3, h4⟩
  have hne := hinj i j hi hj hij
  rcases Nat.lt_or_ge (f i) (f j) with hlt | hge
  · have hstep : p * (f i + 1) ≤ p * f j := mul_le_mul_left' (Nat.succ_le_of_lt hlt) p
    have hmul : p * (f i + 1) = p * f i + p := by ring
    omega
  · have hlt : f j < f i := Nat.lt_of_le_of_ne hge (fun e => hne e.symm)
    have hstep : p * (f j + 1) ≤ p * f i := mul_le_mul_left' (Nat.succ_le_of_lt hlt) p
    have hmul : p * (f j + 1) = p * f j + p := by ring
    omega

/-! ## Data model: FreeImage bitmaps and host (CPU) images -/

/-- FreeImage file format tags (`FREE_IMAGE_FORMAT`): the formats the sources
name explicitly, the unknown tag, and an opaque remainder. -/
inductive FIFormat where
  | unknown
  | pgm
  | png
  | other (n : Nat)
deriving DecidableEq, Repr

/-- FreeImage color types (`FREE_IMAGE_COLOR_TYPE`): `FIC_MINISBLACK`
(grayscale), `FIC_RGBALPHA`, and an opaque remainder. -/
inductive ColorType where
  | minisblack
  | rgbalpha
  | other (n : Nat)
deriving DecidableEq, Repr

/-- A FreeImage bitmap (`FIBITMAP`): dimensions, row pitch in bytes, the raw
bit buffer as a byte map, and the metadata the loaders query.  FreeImage
stores its rows bottom-up: `bits` row 0 is the first stored scanline (the
visual bottom for bottom-first file formats). -/
structure FIBitmap where
  width : Nat
  height : Nat
  pitch : Nat
  bits : Nat → Nat
  colorType : ColorType
  bpp : Nat

/-- A host image buffer (`npp::ImageCPU_8u_C1` / `npp::ImageCPU_8u_C4` from
`ImagesCPU.h`): width and height in pixels, pitch in bytes, pixel bytes as a
byte map; row `i` starts at flat offset `pitch * i`. -/
structure ImageCPU_8u where
  width : Nat
  height : Nat
  pitch : Nat
  data : Nat → Nat

/-- Grayscale 8-bit single-channel host image. -/
abbrev ImageCPU_8u_C1 := ImageCPU_8u

/-- Four-channel 8-bit host image (4 bytes per pixel). -/
abbrev ImageCPU_8u_C4 := ImageCPU_8u

/-- The FreeImage library calls made by `ImageIO.h`, modelled as an
environment of oracles (the codec is an external collaborator; the loaders'
control flow is what is verified, not the codec internals). -/
structure FreeImageEnv where
  getFileType : String → FIFormat
  getFIFFromFilename : String → FIFormat
  fifSupportsReading : FIFormat → Bool
  load : FIFormat → String → Option FIBitmap
  convertTo32 : FIBitmap → FIBitmap

/-- Outcome of `npp::loadImage(const std::string&, ImageCPU_8u_C1&)`:
normal return, an `npp::Exception` thrown by one of the `NPP_ASSERT`
checks (carrying the asserted condition), or the undefined behaviour of
reading the never-assigned local `pBitmap` at `NPP_ASSERT(pBitmap != 0)`. -/
inductive LoadOutcome where
  | ok
  | assertFail (cond : String)
  | readUninit
deriving DecidableEq, Repr

/-- `npp::loadImage(const std::string& rFileName, ImageCPU_8u_C1& rImage)`
(ImageIO.h lines 52-99).  `hostPitch` is the pitch the `ImageCPU_8u_C1`
allocator picks for a given width (`ImagesCPU.h` is not part of the sources;
per the spec the allocator guarantees `pitch >= width * bytesPerPixel`).
Returns the outcome together with the final state of `rImage`: the C++
mutates `rImage` only through the `oImage.swap(rImage)` on the last line, so
on every thrown exception `rImage` is returned unchanged.
The local `FIBITMAP* pBitmap` is modelled as `Option (Option FIBitmap)`:
the outer `none` is the uninitialized state (never assigned), `some none` an
assigned null, `some (some b)` an assigned loaded bitmap. -/
def loadImage_C1 (env : FreeImageEnv) (hostPitch : Nat → Nat) (rFileName : String)
    (rImage : ImageCPU_8u_C1) : LoadOutcome × ImageCPU_8u_C1 :=
  let eFormat0 := env.getFileType rFileName
  let eFormat := if eFormat0 = FIFormat.unknown then env.getFIFFromFilename rFileName else eFormat0
  if eFormat = FIFormat.unknown then
    (LoadOutcome.assertFail "eFormat != FIF_UNKNOWN", rImage)
  else
    let pBitmap : Option (Option FIBitmap) :=
      if env.fifSupportsReading eFormat then some (env.load eFormat rFileName) else none
    match pBitmap with
    | none => (LoadOutcome.readUninit, rImage)
    | some none => (LoadOutcome.assertFail "pBitmap != 0", rImage)
    | some (some bmp) =>
      if bmp.colorType ≠ ColorType.minisblack then
        (LoadOutcome.assertFail "FreeImage_GetColorType(pBitmap) == FIC_MINISBLACK", rImage)
      else if bmp.bpp ≠ 8 then
        (LoadOutcome.assertFail "FreeImage_GetBPP(pBitmap) == 8", rImage)
      else
        let oPitch := hostPitch bmp.width
        let oData := copyRows bmp.bits
          (fun i => bmp.pitch * (bmp.height - 1 - i))
          (fun i => oPitch * i)
          bmp.width bmp.height (fun _ => 0)
        (LoadOutcome.ok,
          { width := bmp.width, height := bmp.height, pitch := oPitch, data := oData })

/-- `bool npp::loadImage(const std::string& fileName, ImageCPU_8u_C4* outCPUMemory)`
(ImageIO.h lines 102-135).  Returns the C++ return value as `Option Bool`
(`none` when the function falls off its end with no `return` statement —
the success path at line 134-135 does exactly that) together with the final
state of `*outCPUMemory`. -/
def loadImage_C4 (env : FreeImageEnv) (hostPitch : Nat → Nat) (fileName : String)
    (outCPUMemory : ImageCPU_8u_C4) : Option Bool × ImageCPU_8u_C4 :=
  match env.load FIFormat.png fileName with
  | none => (some false, outCPUMemory)
  | some dib =>
    let dib32 := env.convertTo32 dib
    let w := dib32.width
    let h := dib32.height
    let oPitch := hostPitch w
    let oData := copyRows dib32.bits
      (fun srcIndex => dib32.pitch * (h - 1 - srcIndex))
      (fun srcIndex => oPitch * srcIndex)
      (w * 4) h (fun _ => 0)
    (none, { width := w, height := h, pitch := oPitch, data := oData })

/-! ## Savers -/

/-- FreeImage's scanline pitch: rows are DWORD (4-byte) aligned, so a row of
`rowBytes` payload bytes occupies `(rowBytes + 3) / 4 * 4` bytes
(`FreeImage_GetPitch` on a bitmap made by `FreeImage_Allocate`). -/
def fiAllocPitch (rowBytes : Nat) : Nat := (rowBytes + 3) / 4 * 4

/-- The write request a `saveImage` call hands to `FreeImage_Save`: the
target file name, the fixed format tag passed, and the bitmap built by the
preceding allocate-and-copy stage. -/
structure SaveRequest where
  fileName : String
  format : FIFormat
  bitmap : FIBitmap

/-- `npp::saveImage(const std::string& rFileName, const ImageCPU_8u_C1& rImage)`
(ImageIO.h lines 138-161): allocates an 8-bpp FreeImage bitmap of the image's
dimensions, copies the rows bottom-up (destination line pointer starts at the
last stored row and walks backwards), then saves it with format `FIF_PGM`.
`FreeImage_Allocate` zero-fills the bitmap; an 8-bpp bitmap written as a PGM
is grayscale, so the bitmap carries `FIC_MINISBLACK` / 8 bpp (the metadata a
reload of the PGM file reports). -/
def saveImage_C1 (rFileName : String) (rImage : ImageCPU_8u_C1) : SaveRequest :=
  let nDstPitch := fiAllocPitch (rImage.width * 1)
  let h := rImage.height
  let bits := copyRows rImage.data
    (fun iLine => rImage.pitch * iLine)
    (fun iLine => nDstPitch * (h - 1 - iLine))
    rImage.width h (fun _ => 0)
  { fileName := rFileName
    format := FIFormat.pgm
    bitmap := { width := rImage.width, height := h, pitch := nDstPitch, bits := bits,
                colorType := ColorType.minisblack, bpp := 8 } }

/-- `npp::saveImage(const std::string& rFileName, const ImageCPU_8u_C4& rImage)`
(ImageIO.h lines 164-187): same structure with a 32-bpp bitmap, rows of
`width * 4` payload bytes, saved with format `FIF_PNG`. -/
def saveImage_C4 (rFileName : String) (rImage : ImageCPU_8u_C4) : SaveRequest :=
  let nDstPitch := fiAllocPitch (rImage.width * 4)
  let h := rImage.height
  let bits := copyRows rImage.data
    (fun iLine => rImage.pitch * iLine)
    (fun iLine => nDstPitch * (h - 1 - iLine))
    (rImage.width * 4) h (fun _ => 0)
  { fileName := rFileName
    format := FIFormat.png
    bitmap := { width := rImage.width, height := h, pitch := nDstPitch, bits := bits,
                colorType := ColorType.rgbalpha, bpp := 32 } }

/-! ## MipMapChunk (src/MipMapChunk.h)

`nppdefs.h`, `ImagesNPP.h` and the NPP resize primitive are external to the
sources; the structures below carry exactly the fields the constructor
reads and writes, and `nppiResize_8u_C4R_Ctx` is an oracle returning an
`NppStatus`. -/

/-- `NppiSize` (nppdefs.h): width and height as C `int`. -/
structure NppiSize where
  width : Int
  height : Int
deriving DecidableEq, Repr

/-- `NppiRect` (nppdefs.h): origin and extent as C `int`. -/
structure NppiRect where
  x : Int
  y : Int
  width : Int
  height : Int
deriving DecidableEq, Repr

/-- `NppStreamContext`: an opaque stream token (only passed through). -/
structure NppStreamContext where
  id : Nat
deriving DecidableEq, Repr

/-- `NppStatus`: `NPP_SUCCESS` or a nonzero error code. -/
inductive NppStatus where
  | success
  | err (code : Int)
deriving DecidableEq, Repr

/-- `NPPI_INTER_LINEAR` from nppdefs.h. -/
def NPPI_INTER_LINEAR : Int := 2

/-- A device image (`npp::ImageNPP_8u_C4`): dimensions and device pitch.
Modelled from the spec: the device allocator picks the pitch; pixel contents
live on the device and are out of scope for the chunk-construction claims. -/
structure ImageNPP_8u_C4 where
  width : Int
  height : Int
  pitch : Int
deriving DecidableEq, Repr

/-- The argument tuple `MipMapChunk`'s constructor passes to
`nppiResize_8u_C4R_Ctx` (src/MipMapChunk.h lines 32-35), minus the raw
device pointers (represented by the images' metadata). -/
structure ResizeArgs where
  srcPitch : Int
  srcSize : NppiSize
  srcROI : NppiRect
  dstPitch : Int
  dstSize : NppiSize
  dstROI : NppiRect
  interpolation : Int
  ctx : NppStreamContext
deriving DecidableEq, Repr

/-- The `MipMapChunk` struct: the generated device image and its size. -/
structure MipMapChunk where
  GPUMemory : ImageNPP_8u_C4
  Size : NppiSize
deriving DecidableEq, Repr

/-- `NPP_CHECK_NPP` (helper_cuda.h): throws unless the status is
`NPP_SUCCESS`. -/
def NPP_CHECK_NPP (s : NppStatus) : Except NppStatus Unit :=
  if s = NppStatus.success then Except.ok () else Except.error s

/-- The argument tuple built by `MipMapChunk::MipMapChunk`
(src/MipMapChunk.h lines 22-35): source size and ROI are the full extent of
`srcImage`, destination size is `{width, height}` with ROI its full extent,
and the interpolation mode and stream context are passed through. -/
def MipMapChunk.resizeArgs (srcImage : ImageNPP_8u_C4) (width height : Int)
    (streamCtx : NppStreamContext) (eInterpolation : Int) (dstPitch : Int) : ResizeArgs :=
  let srcSize : NppiSize := { width := srcImage.width, height := srcImage.height }
  let srcROI : NppiRect := { x := 0, y := 0, width := srcSize.width, height := srcSize.height }
  let size : NppiSize := { width := width, height := height }
  let roi : NppiRect := { x := 0, y := 0, width := size.width, height := size.height }
  { srcPitch := srcImage.pitch, srcSize := srcSize, srcROI := srcROI,
    dstPitch := dstPitch, dstSize := size, dstROI := roi,
    interpolation := eInterpolation, ctx := streamCtx }

/-- `MipMapChunk::MipMapChunk(npp::ImageNPP_8u_C4&, int, int, NppStreamContext&, int)`
(src/MipMapChunk.h lines 20-36).  `nppiResize` is the external
`nppiResize_8u_C4R_Ctx` primitive as an oracle on the passed arguments;
`devPitch` is the device allocator's pitch choice for a given width
(modelled from the spec, which leaves it to the device allocator).  A
non-success status makes `NPP_CHECK_NPP` throw, so the constructor either
returns a fully built chunk or propagates the error with no chunk. -/
def MipMapChunk.construct (nppiResize : ResizeArgs → NppStatus) (devPitch : Int → Int)
    (srcImage : ImageNPP_8u_C4) (width height : Int) (streamCtx : NppStreamContext)
    (eInterpolation : Int := NPPI_INTER_LINEAR) : Except NppStatus MipMapChunk :=
  let size : NppiSize := { width := width, height := height }
  let gpuMemory : ImageNPP_8u_C4 :=
    { width := size.width, height := size.height, pitch := devPitch size.width }
  let args := MipMapChunk.resizeArgs srcImage width height streamCtx eInterpolation gpuMemory.pitch
  match NPP_CHECK_NPP (nppiResize args) with
  | Except.ok _ => Except.ok { GPUMemory := gpuMemory, Size := size }
  | Except.error e => Except.error e

/-! ## Loader characterization lemmas -/

/-- On the success path (recognized readable format, bitmap loaded,
`FIC_MINISBLACK`, 8 bpp) the grayscale loader returns the freshly copied
image. -/
theorem loadImage_C1_success_eq (env : FreeImageEnv) (hostPitch : Nat → Nat)
    (rFileName : String) (rImage : ImageCPU_8u) (bmp : FIBitmap)
    (hfmt : env.getFileType rFileName ≠ FIFormat.unknown)
    (hread : env.fifSupportsReading (env.getFileType rFileName) = true)
    (hload : env.load (env.getFileType rFileName) rFileName = some bmp)
    (hct : bmp.colorType = ColorType.minisblack)
    (hbpp : bmp.bpp = 8) :
    loadImage_C1 env hostPitch rFileName rImage =
      (LoadOutcome.ok,
        { width := bmp.width, height := bmp.height, pitch := hostPitch bmp.width,
          data := copyRows bmp.bits
            (fun i => bmp.pitch * (bmp.height - 1 - i))
            (fun i => hostPitch bmp.width * i)
            bmp.width bmp.height (fun _ => 0) }) := by
  simp [loadImage_C1, hfmt, hread, hload, hct, hbpp]

/-- Every exception path of the grayscale loader leaves `rImage` untouched:
the result is either `ok` or carries the unchanged destination. -/
theorem loadImage_C1_ok_or_frame (env : FreeImageEnv) (hostPitch : Nat → Nat)
    (rFileName : String) (rImage : ImageCPU_8u) :
    (loadImage_C1 env hostPitch rFileName rImage).1 = LoadOutcome.ok ∨
      (loadImage_C1 env hostPitch rFileName rImage).2 = rImage := by
  unfold loadImage_C1
  dsimp only
  repeat' split
  all_goals first | (left; rfl) | (right; rfl)

/-- On a successful `FIF_PNG` load the four-channel loader stores the
converted image in `*outCPUMemory` and returns no value (the function falls
off its end). -/
theorem loadImage_C4_success_eq (env : FreeImageEnv) (hostPitch : Nat → Nat)
    (fileName : String) (out : ImageCPU_8u) (dib : FIBitmap)
    (hload : env.load FIFormat.png fileName = some dib) :
    loadImage_C4 env hostPitch fileName out =
      (none,
        { width := (env.convertTo32 dib).width, height := (env.convertTo32 dib).height,
          pitch := hostPitch (env.convertTo32 dib).width,
          data := copyRows (env.convertTo32 dib).bits
            (fun srcIndex => (env.convertTo32 dib).pitch *
              ((env.convertTo32 dib).height - 1 - srcIndex))
            (fun srcIndex => hostPitch (env.convertTo32 dib).width * srcIndex)
            ((env.convertTo32 dib).width * 4) (env.convertTo32 dib).height
            (fun _ => 0) }) := by
  simp [loadImage_C4, hload]

/-- When `FreeImage_Load` fails the four-channel loader returns `false` and
leaves `*outCPUMemory` untouched. -/
theorem loadImage_C4_fail_eq (env : FreeImageEnv) (hostPitch : Nat → Nat)
    (fileName : String) (out : ImageCPU_8u)
    (hload : env.load FIFormat.png fileName = none) :
    loadImage_C4 env hostPitch fileName out = (some false, out) := by
  simp [loadImage_C4, hload]

/-- The four-channel loader only returns `some false` when it did not touch
the destination. -/
theorem loadImage_C4_false_frame (env : FreeImageEnv) (hostPitch : Nat → Nat)
    (fileName : String) (out : ImageCPU_8u)
    (h : (loadImage_C4 env hostPitch fileName out).1 = some false) :
    (loadImage_C4 env hostPitch fileName out).2 = out := by
  rcases hl : env.load FIFormat.png fileName with _ | dib
  · rw [loadImage_C4_fail_eq env hostPitch fileName out hl]
  · rw [loadImage_C4_success_eq env hostPitch fileName out dib hl] at h
    exact absurd h (by simp)

/-- Pixel content of a successful grayscale load: byte `j` of result row `i`
is byte `j` of stored scanline `height - 1 - i` of the FreeImage bitmap. -/
theorem loadImage_C1_pixel (env : FreeImageEnv) (hostPitch : Nat → Nat)
    (rFileName : String) (rImage : ImageCPU_8u) (bmp : FIBitmap)
    (hfmt : env.getFileType rFileName ≠ FIFormat.unknown)
    (hread : env.fifSupportsReading (env.getFileType rFileName) = true)
    (hload : env.load (env.getFileType rFileName) rFileName = some bmp)
    (hct : bmp.colorType = ColorType.minisblack)
    (hbpp : bmp.bpp = 8)
    (hp : bmp.width ≤ hostPitch bmp.width)
    (i j : Nat) (hi : i < bmp.height) (hj : j < bmp.width) :
    (loadImage_C1 env hostPitch rFileName rImage).2.data (hostPitch bmp.width * i + j) =
      bmp.bits (bmp.pitch * (bmp.height - 1 - i) + j) := by
  rw [loadImage_C1_success_eq env hostPitch rFileName rImage bmp hfmt hread hload hct hbpp]
  exact copyRows_get bmp.bits
    (fun r => bmp.pitch * (bmp.height - 1 - r))
    (fun r => hostPitch bmp.width * r)
    bmp.width bmp.height (fun _ => 0) i j
    (rows_sep_of_mul (hostPitch bmp.width) bmp.width bmp.height (fun r => r) hp
      (fun a b _ _ hab => hab)) hi hj

/-- Pixel content of a successful four-channel load: byte `j` of result row
`i` is byte `j` of stored scanline `height - 1 - i` of the converted 32-bit
FreeImage bitmap. -/
theorem loadImage_C4_pixel (env : FreeImageEnv) (hostPitch : Nat → Nat)
    (fileName : String) (out : ImageCPU_8u) (dib : FIBitmap)
    (hload : env.load FIFormat.png fileName = some dib)
    (hp : (env.convertTo32 dib).width * 4 ≤ hostPitch (env.convertTo32 dib).width)
    (i j : Nat) (hi : i < (env.convertTo32 dib).height)
    (hj : j < (env.convertTo32 dib).width * 4) :
    (loadImage_C4 env hostPitch fileName out).2.data
        (hostPitch (env.convertTo32 dib).width * i + j) =
      (env.convertTo32 dib).bits
        ((env.convertTo32 dib).pitch * ((env.convertTo32 dib).height - 1 - i) + j) := by
  rw [loadImage_C4_success_eq env hostPitch fileName out dib hload]
  exact copyRows_get (env.convertTo32 dib).bits
    (fun r => (env.convertTo32 dib).pitch * ((env.convertTo32 dib).height - 1 - r))
    (fun r => hostPitch (env.convertTo32 dib).width * r)
    ((env.convertTo32 dib).width * 4) (env.convertTo32 dib).height (fun _ => 0) i j
    (rows_sep_of_mul (hostPitch (env.convertTo32 dib).width)
      ((env.convertTo32 dib).width * 4) (env.convertTo32 dib).height (fun r => r) hp
      (fun a b _ _ hab => hab)) hi hj

/-- Stored scanlines of the bitmap built by the grayscale saver: byte `j` of
stored scanline `height - 1 - i` is byte `j` of source row `i`. -/
theorem saveImage_C1_bits (rFileName : String) (rImage : ImageCPU_8u)
    (i j : Nat) (hi : i < rImage.height) (hj : j < rImage.width) :
    (saveImage_C1 rFileName rImage).bitmap.bits
        (fiAllocPitch (rImage.width * 1) * (rImage.height - 1 - i) + j) =
      rImage.data (rImage.pitch * i + j) := by
  dsimp only [saveImage_C1]
  exact copyRows_get rImage.data
    (fun r => rImage.pitch * r)
    (fun r => fiAllocPitch (rImage.width * 1) * (rImage.height - 1 - r))
    rImage.width rImage.height (fun _ => 0) i j
    (rows_sep_of_mul (fiAllocPitch (rImage.width * 1)) rImage.width rImage.height
      (fun r => rImage.height - 1 - r)
      (by unfold fiAllocPitch; omega)
      (fun a b ha hb hab he => hab (by
        have he' : rImage.height - 1 - a = rImage.height - 1 - b := he
        omega))) hi hj

/-! ## Concrete fixtures for witnesses and counterexamples -/

/-- A 2-by-2, 8-bpp grayscale bitmap, pitch 4; the byte at flat offset `a`
is `a`, so stored scanline 0 is bytes 0,1 and stored scanline 1 is 4,5. -/
def bmpGray : FIBitmap :=
  { width := 2, height := 2, pitch := 4, bits := fun a => a,
    colorType := ColorType.minisblack, bpp := 8 }

/-- A 1-by-1, 32-bpp color bitmap (a color PNG's native pixel format). -/
def bmpColor : FIBitmap :=
  { width := 1, height := 1, pitch := 4, bits := fun a => a + 10,
    colorType := ColorType.rgbalpha, bpp := 32 }

/-- An empty destination shell, as a caller would pass before a load. -/
def imgShell : ImageCPU_8u :=
  { width := 0, height := 0, pitch := 0, data := fun _ => 0 }

/-- A codec environment in which nothing is recognized or loadable. -/
def envFail : FreeImageEnv :=
  { getFileType := fun _ => FIFormat.unknown
    getFIFFromFilename := fun _ => FIFormat.unknown
    fifSupportsReading := fun _ => false
    load := fun _ _ => none
    convertTo32 := fun b => b }

/-- A codec environment whose every file is the 8-bpp grayscale `bmpGray`
stored as a PNG; 32-bit conversion is the identity so that the converted
bitmap's bytes stay inspectable. -/
def envGrayPng : FreeImageEnv :=
  { getFileType := fun _ => FIFormat.png
    getFIFFromFilename := fun _ => FIFormat.unknown
    fifSupportsReading := fun _ => true
    load := fun fmt _ => if fmt = FIFormat.png then some bmpGray else none
    convertTo32 := fun b => b }

/-- A codec environment whose every file is the 32-bpp color `bmpColor`
stored as a PNG. -/
def envColorPng : FreeImageEnv :=
  { getFileType := fun _ => FIFormat.png
    getFIFFromFilename := fun _ => FIFormat.unknown
    fifSupportsReading := fun _ => true
    load := fun fmt _ => if fmt = FIFormat.png then some bmpColor else none
    convertTo32 := fun b => b }

/-- A codec environment in which the file's signature is recognized as some
format whose FreeImage plugin has no reading support. -/
def envNoReadSupport : FreeImageEnv :=
  { getFileType := fun _ => FIFormat.other 7
    getFIFFromFilename := fun _ => FIFormat.unknown
    fifSupportsReading := fun _ => false
    load := fun _ _ => none
    convertTo32 := fun b => b }

/-! ## Claims -/

/-- C2: for every file decoded by either loader, the host buffer is
vertically flipped relative to the on-disk bottom-scanline-first storage:
byte `j` of result row `i` equals byte `j` of stored scanline
`height - 1 - i` (FreeImage's `bits` rows are the stored scanlines), so
row 0 holds the last stored scanline and row `height - 1` the first. -/
theorem C2_loaders_flip_vertically
    (env : FreeImageEnv) (hostPitch hostPitch4 : Nat → Nat) (f g : String)
    (rImage out : ImageCPU_8u) (bmp dib : FIBitmap)
    (hfmt : env.getFileType f ≠ FIFormat.unknown)
    (hread : env.fifSupportsReading (env.getFileType f) = true)
    (hload : env.load (env.getFileType f) f = some bmp)
    (hct : bmp.colorType = ColorType.minisblack)
    (hbpp : bmp.bpp = 8)
    (hp : bmp.width ≤ hostPitch bmp.width)
    (hload4 : env.load FIFormat.png g = some dib)
    (hp4 : (env.convertTo32 dib).width * 4 ≤ hostPitch4 (env.convertTo32 dib).width) :
    (∀ i j, i < bmp.height → j < bmp.width →
      (loadImage_C1 env hostPitch f rImage).2.data (hostPitch bmp.width * i + j) =
        bmp.bits (bmp.pitch * (bmp.height - 1 - i) + j)) ∧
    (∀ i j, i < (env.convertTo32 dib).height → j < (env.convertTo32 dib).width * 4 →
      (loadImage_C4 env hostPitch4 g out).2.data
          (hostPitch4 (env.convertTo32 dib).width * i + j) =
        (env.convertTo32 dib).bits
          ((env.convertTo32 dib).pitch * ((env.convertTo32 dib).height - 1 - i) + j)) :=
  ⟨fun i j hi hj => loadImage_C1_pixel env hostPitch f rImage bmp hfmt hread hload hct hbpp hp i j hi hj,
   fun i j hi hj => loadImage_C4_pixel env hostPitch4 g out dib hload4 hp4 i j hi hj⟩

theorem C2_loaders_flip_vertically_witness :
    (loadImage_C1 envGrayPng (fun w => w) "a.png" imgShell).2.data
        ((fun w => w) bmpGray.width * 0 + 0) =
      bmpGray.bits (bmpGray.pitch * (bmpGray.height - 1 - 0) + 0) ∧
    (loadImage_C4 envGrayPng (fun w => w * 4) "a.png" imgShell).2.data
        ((fun w => w * 4) (envGrayPng.convertTo32 bmpGray).width * 1 + 3) =
      (envGrayPng.convertTo32 bmpGray).bits
        ((envGrayPng.convertTo32 bmpGray).pitch *
          ((envGrayPng.convertTo32 bmpGray).height - 1 - 1) + 3) ∧
    bmpGray.bits (bmpGray.pitch * (bmpGray.height - 1 - 0) + 0) = 4 :=
  ⟨(C2_loaders_flip_vertically envGrayPng (fun w => w) (fun w => w * 4) "a.png" "a.png"
      imgShell imgShell bmpGray bmpGray (by decide) rfl rfl rfl rfl (by decide) rfl
      (by decide)).1 0 0 (by decide) (by decide),
   (C2_loaders_flip_vertically envGrayPng (fun w => w) (fun w => w * 4) "a.png" "a.png"
      imgShell imgShell bmpGray bmpGray (by decide) rfl rfl rfl rfl (by decide) rfl
      (by decide)).2 1 3 (by decide) (by decide),
   rfl⟩

/-- C4: the failure paths the claim lists (unknown signature, load failure,
wrong color type or bit depth) are exactly the `NPP_ASSERT` exceptions of
the grayscale loader and the `return false` path of the four-channel
loader; on each of them the caller-provided destination buffer is returned
unchanged (the grayscale loader swaps only as its final step, the
four-channel loader assigns `*outCPUMemory` only after all checks). -/
theorem C4_failed_load_leaves_destination_unchanged
    (env : FreeImageEnv) (hostPitch hostPitch4 : Nat → Nat) (f g : String)
    (rImage out : ImageCPU_8u) :
    (∀ cond, (loadImage_C1 env hostPitch f rImage).1 = LoadOutcome.assertFail cond →
      (loadImage_C1 env hostPitch f rImage).2 = rImage) ∧
    ((loadImage_C4 env hostPitch4 g out).1 = some false →
      (loadImage_C4 env hostPitch4 g out).2 = out) := by
  constructor
  · intro cond hcond
    rcases loadImage_C1_ok_or_frame env hostPitch f rImage with hok | hfr
    · rw [hcond] at hok
      exact absurd hok (by simp)
    · exact hfr
  · exact loadImage_C4_false_frame env hostPitch4 g out

theorem C4_failed_load_leaves_destination_unchanged_witness :
    (loadImage_C1 envFail (fun w => w) "bad.bin" imgShell).2 = imgShell ∧
    (loadImage_C4 envFail (fun w => w * 4) "bad.png" imgShell).2 = imgShell :=
  ⟨(C4_failed_load_leaves_destination_unchanged envFail (fun w => w) (fun w => w * 4)
      "bad.bin" "bad.png" imgShell imgShell).1 "eFormat != FIF_UNKNOWN" rfl,
   (C4_failed_load_leaves_destination_unchanged envFail (fun w => w) (fun w => w * 4)
      "bad.bin" "bad.png" imgShell imgShell).2 rfl⟩

/-- C5: the claim says the four-channel loader returns `true` on every
successful load.  In the code the success path (ImageIO.h line 134-135)
ends without any `return` statement, so no value is returned (undefined
behaviour in C++, `none` in this model); only the failure path returns a
value, namely `false`. -/
theorem C5_success_path_returns_no_value :
    (loadImage_C4 envGrayPng (fun w => w * 4) "ok.png" imgShell).1 = none ∧
    (loadImage_C4 envFail (fun w => w * 4) "missing.png" imgShell).1 = some false :=
  ⟨rfl, rfl⟩

/-- C9: the claim says `pBitmap` has been assigned on every path that
reaches `NPP_ASSERT(pBitmap != 0)`.  It has not: for a file whose signature
is recognized as a format without reading support,
`FreeImage_FIFSupportsReading` returns false, the `if` body that assigns
`pBitmap` is skipped, and the check reads the uninitialized local. -/
theorem C9_uninitialized_bitmap_read :
    loadImage_C1 envNoReadSupport (fun w => w) "img.xyz" imgShell =
      (LoadOutcome.readUninit, imgShell) := rfl

/-- C10: the grayscale saver always passes `FIF_PGM` to `FreeImage_Save`
and the four-channel saver always passes `FIF_PNG`, for every output path:
the format tag does not depend on the file name. -/
theorem C10_save_formats_fixed (rFileName : String) (img1 img4 : ImageCPU_8u) :
    (saveImage_C1 rFileName img1).format = FIFormat.pgm ∧
    (saveImage_C4 rFileName img4).format = FIFormat.png :=
  ⟨rfl, rfl⟩

/-- C1 counterexample: a PNG whose native pixel format is 8-bpp grayscale
(`bmpGray`, not the loader's four-channel format) is not rejected by the
four-channel loader: it is converted to 32 bits and copied, the destination
buffer is overwritten (height becomes 2), and `false` is never returned. -/
theorem C1_counterexample_c4_loader_accepts_mismatch :
    bmpGray.bpp = 8 ∧ bmpGray.bpp ≠ 32 ∧
    (loadImage_C4 envGrayPng (fun w => w * 4) "gray8.png" imgShell).1 ≠ some false ∧
    (loadImage_C4 envGrayPng (fun w => w * 4) "gray8.png" imgShell).2.height = 2 := by
  refine ⟨rfl, by decide, ?_, rfl⟩
  intro h
  rw [loadImage_C4_success_eq envGrayPng (fun w => w * 4) "gray8.png" imgShell bmpGray rfl] at h
  exact Option.noConfusion h

/-- C1 (amended): the grayscale loader rejects with a `DecodeError`
(`npp::Exception` from `NPP_ASSERT`) every file whose native format is not
8-bit single-channel, leaving the destination untouched; the four-channel
loader, however, does not check the native pixel format at all — it
converts any successfully loaded PNG to 32-bit and fills the destination
with the converted image, failing only when the file cannot be loaded. -/
theorem C1_amended_format_checks
    (env : FreeImageEnv) (hostPitch hostPitch4 : Nat → Nat) (f g : String)
    (rImage out : ImageCPU_8u) (bmp dib : FIBitmap)
    (hfmt : env.getFileType f ≠ FIFormat.unknown)
    (hread : env.fifSupportsReading (env.getFileType f) = true)
    (hload : env.load (env.getFileType f) f = some bmp)
    (hmis : bmp.colorType ≠ ColorType.minisblack ∨ bmp.bpp ≠ 8)
    (hload4 : env.load FIFormat.png g = some dib) :
    (∃ cond, loadImage_C1 env hostPitch f rImage = (LoadOutcome.assertFail cond, rImage)) ∧
    (loadImage_C4 env hostPitch4 g out).1 ≠ some false ∧
    (loadImage_C4 env hostPitch4 g out).2.width = (env.convertTo32 dib).width ∧
    (loadImage_C4 env hostPitch4 g out).2.height = (env.convertTo32 dib).height := by
  refine ⟨?_, ?_, ?_, ?_⟩
  · rcases hmis with hct | hbpp
    · exact ⟨"FreeImage_GetColorType(pBitmap) == FIC_MINISBLACK",
        by simp [loadImage_C1, hfmt, hread, hload, hct]⟩
    · by_cases hct : bmp.colorType = ColorType.minisblack
      · exact ⟨"FreeImage_GetBPP(pBitmap) == 8",
          by simp [loadImage_C1, hfmt, hread, hload, hct, hbpp]⟩
      · exact ⟨"FreeImage_GetColorType(pBitmap) == FIC_MINISBLACK",
          by simp [loadImage_C1, hfmt, hread, hload, hct]⟩
  · rw [loadImage_C4_success_eq env hostPitch4 g out dib hload4]
    simp
  · rw [loadImage_C4_success_eq env hostPitch4 g out dib hload4]
  · rw [loadImage_C4_success_eq env hostPitch4 g out dib hload4]

theorem C1_amended_format_checks_witness :
    (∃ cond, loadImage_C1 envColorPng (fun w => w) "c.png" imgShell =
      (LoadOutcome.assertFail cond, imgShell)) ∧
    (loadImage_C4 envColorPng (fun w => w * 4) "c.png" imgShell).1 ≠ some false ∧
    (loadImage_C4 envColorPng (fun w => w * 4) "c.png" imgShell).2.width =
      (envColorPng.convertTo32 bmpColor).width ∧
    (loadImage_C4 envColorPng (fun w => w * 4) "c.png" imgShell).2.height =
      (envColorPng.convertTo32 bmpColor).height :=
  C1_amended_format_checks envColorPng (fun w => w) (fun w => w * 4) "c.png" "c.png"
    imgShell imgShell bmpColor bmpColor (by decide) rfl rfl (Or.inl (by decide)) rfl

/-- C3: saving a grayscale host image as PGM and reloading the written file
reproduces the content pixel for pixel, compared row by row over the first
`width` bytes of each row; pitches of the two buffers may differ.  The
on-disk PGM file is identified with the FreeImage bitmap the saver wrote
(the PGM codec round-trips an 8-bpp grayscale bitmap's scanlines), so
`hload` states that reloading the written file yields that bitmap. -/
theorem C3_save_load_roundtrip_C1 (rImage : ImageCPU_8u_C1) (env : FreeImageEnv)
    (hostPitch : Nat → Nat) (rFileName : String) (rShell : ImageCPU_8u_C1)
    (hp : rImage.width ≤ hostPitch rImage.width)
    (hfmt : env.getFileType rFileName ≠ FIFormat.unknown)
    (hread : env.fifSupportsReading (env.getFileType rFileName) = true)
    (hload : env.load (env.getFileType rFileName) rFileName =
      some (saveImage_C1 rFileName rImage).bitmap) :
    (loadImage_C1 env hostPitch rFileName rShell).1 = LoadOutcome.ok ∧
    (loadImage_C1 env hostPitch rFileName rShell).2.width = rImage.width ∧
    (loadImage_C1 env hostPitch rFileName rShell).2.height = rImage.height ∧
    ∀ i j, i < rImage.height → j < rImage.width →
      (loadImage_C1 env hostPitch rFileName rShell).2.data
          ((loadImage_C1 env hostPitch rFileName rShell).2.pitch * i + j) =
        rImage.data (rImage.pitch * i + j) := by
  have hbw : (saveImage_C1 rFileName rImage).bitmap.width = rImage.width := rfl
  have hbh : (saveImage_C1 rFileName rImage).bitmap.height = rImage.height := rfl
  have hbp : (saveImage_C1 rFileName rImage).bitmap.pitch =
    fiAllocPitch (rImage.width * 1) := rfl
  have hse := loadImage_C1_success_eq env hostPitch rFileName rShell _ hfmt hread hload rfl rfl
  refine ⟨by rw [hse], by rw [hse]; exact hbw, by rw [hse]; exact hbh, ?_⟩
  intro i j hi hj
  have hpix := loadImage_C1_pixel env hostPitch rFileName rShell _ hfmt hread hload rfl rfl
    (by rw [hbw]; exact hp) i j (by rw [hbh]; exact hi) (by rw [hbw]; exact hj)
  rw [hbw, hbh, hbp] at hpix
  have hrp : (loadImage_C1 env hostPitch rFileName rShell).2.pitch =
    hostPitch rImage.width := by rw [hse]; rfl
  rw [hrp, hpix, saveImage_C1_bits rFileName rImage i j hi hj]

/-- A 2-by-2 grayscale host image with pitch 3 (one padding byte per row)
whose payload byte at flat offset `a` is `a + 100`. -/
def imgGray2 : ImageCPU_8u :=
  { width := 2, height := 2, pitch := 3, data := fun a => a + 100 }

/-- A codec environment in which the round-trip file reloads as exactly the
bitmap the grayscale saver wrote for `imgGray2`. -/
def envRoundTrip : FreeImageEnv :=
  { getFileType := fun _ => FIFormat.pgm
    getFIFFromFilename := fun _ => FIFormat.unknown
    fifSupportsReading := fun _ => true
    load := fun fmt _ =>
      if fmt = FIFormat.pgm then some (saveImage_C1 "t.pgm" imgGray2).bitmap else none
    convertTo32 := fun b => b }

theorem C3_save_load_roundtrip_C1_witness :
    (loadImage_C1 envRoundTrip (fun w => w) "t.pgm" imgShell).1 = LoadOutcome.ok ∧
    (loadImage_C1 envRoundTrip (fun w => w) "t.pgm" imgShell).2.data
        ((loadImage_C1 envRoundTrip (fun w => w) "t.pgm" imgShell).2.pitch * 1 + 1) =
      imgGray2.data (imgGray2.pitch * 1 + 1) ∧
    imgGray2.data (imgGray2.pitch * 1 + 1) = 104 :=
  ⟨(C3_save_load_roundtrip_C1 imgGray2 envRoundTrip (fun w => w) "t.pgm" imgShell
      (by decide) (by decide) rfl rfl).1,
   (C3_save_load_roundtrip_C1 imgGray2 envRoundTrip (fun w => w) "t.pgm" imgShell
      (by decide) (by decide) rfl rfl).2.2.2 1 1 (by decide) (by decide),
   rfl⟩

/-- The documented size contract of the external `nppiResize_8u_C4R_Ctx`
primitive: a destination region of interest with non-positive width or
height is reported as an error status, never as `NPP_SUCCESS`. -/
def nppSizeContract (nppiResize : ResizeArgs → NppStatus) : Prop :=
  ∀ args, args.dstROI.width ≤ 0 ∨ args.dstROI.height ≤ 0 →
    nppiResize args ≠ NppStatus.success

/-- C6: constructing a `MipMapChunk` with `targetWidth <= 0` or
`targetHeight <= 0` fails (the `ResizeError`: `NPP_CHECK_NPP` throws on the
error status the resize primitive reports for the degenerate destination
region) and yields no chunk. -/
theorem C6_nonpositive_target_fails (nppiResize : ResizeArgs → NppStatus)
    (hc : nppSizeContract nppiResize) (devPitch : Int → Int)
    (srcImage : ImageNPP_8u_C4) (width height : Int) (streamCtx : NppStreamContext)
    (eInterpolation : Int) (hwh : width ≤ 0 ∨ height ≤ 0) :
    ∃ e, MipMapChunk.construct nppiResize devPitch srcImage width height streamCtx
      eInterpolation = Except.error e := by
  have hargs : (MipMapChunk.resizeArgs srcImage width height streamCtx eInterpolation
      (devPitch width)).dstROI.width ≤ 0 ∨
      (MipMapChunk.resizeArgs srcImage width height streamCtx eInterpolation
      (devPitch width)).dstROI.height ≤ 0 := hwh
  have hne := hc _ hargs
  refine ⟨nppiResize (MipMapChunk.resizeArgs srcImage width height streamCtx
    eInterpolation (devPitch width)), ?_⟩
  unfold MipMapChunk.construct NPP_CHECK_NPP
  dsimp only
  rw [if_neg hne]

/-- A concrete oracle obeying the size contract: success exactly when both
regions of interest are positive. -/
def resizeOracleSized : ResizeArgs → NppStatus := fun args =>
  if 0 < args.dstROI.width ∧ 0 < args.dstROI.height ∧
      0 < args.srcROI.width ∧ 0 < args.srcROI.height
  then NppStatus.success else NppStatus.err (-6)

theorem resizeOracleSized_contract : nppSizeContract resizeOracleSized := by
  intro args h heq
  unfold resizeOracleSized at heq
  split at heq
  · next hpos => rcases hpos with ⟨h1, h2, _⟩; omega
  · exact NppStatus.noConfusion heq

/-- A 1024-by-1024 source device image. -/
def srcImage1024 : ImageNPP_8u_C4 := { width := 1024, height := 1024, pitch := 4096 }

theorem C6_nonpositive_target_fails_witness :
    ∃ e, MipMapChunk.construct resizeOracleSized (fun w => w * 4) srcImage1024 0 256
      { id := 0 } NPPI_INTER_LINEAR = Except.error e :=
  C6_nonpositive_target_fails resizeOracleSized resizeOracleSized_contract (fun w => w * 4)
    srcImage1024 0 256 { id := 0 } NPPI_INTER_LINEAR (Or.inl (by decide))

/-- C7: the source region handed to the resize primitive is always the full
extent of the source buffer, the destination region the full extent of the
requested target; the interpolation default of the constructor is
`NPPI_INTER_LINEAR` (= 2); and a target equal to the source size goes
through the same resize call rather than being special-cased, so a failure
the primitive reports there still propagates. -/
theorem C7_full_extent_rois_default_linear (srcImage : ImageNPP_8u_C4)
    (width height dstPitch : Int) (streamCtx : NppStreamContext) (eInterpolation : Int) :
    (MipMapChunk.resizeArgs srcImage width height streamCtx eInterpolation dstPitch).srcROI =
      { x := 0, y := 0, width := srcImage.width, height := srcImage.height } ∧
    (MipMapChunk.resizeArgs srcImage width height streamCtx eInterpolation dstPitch).dstROI =
      { x := 0, y := 0, width := width, height := height } ∧
    NPPI_INTER_LINEAR = 2 ∧
    (∀ nppiResize devPitch,
      MipMapChunk.construct nppiResize devPitch srcImage width height streamCtx =
        MipMapChunk.construct nppiResize devPitch srcImage width height streamCtx
          NPPI_INTER_LINEAR) ∧
    (∀ nppiResize : ResizeArgs → NppStatus, ∀ devPitch : Int → Int,
      nppiResize (MipMapChunk.resizeArgs srcImage srcImage.width srcImage.height streamCtx
          eInterpolation (devPitch srcImage.width)) ≠ NppStatus.success →
      MipMapChunk.construct nppiResize devPitch srcImage srcImage.width srcImage.height
          streamCtx eInterpolation =
        Except.error (nppiResize (MipMapChunk.resizeArgs srcImage srcImage.width
          srcImage.height streamCtx eInterpolation (devPitch srcImage.width)))) := by
  refine ⟨rfl, rfl, rfl, fun _ _ => rfl, fun nppiResize devPitch hne => ?_⟩
  unfold MipMapChunk.construct NPP_CHECK_NPP
  dsimp only
  rw [if_neg hne]

theorem C7_full_extent_rois_default_linear_witness :
    (MipMapChunk.resizeArgs srcImage1024 512 512 { id := 0 } NPPI_INTER_LINEAR 2048).srcROI =
      { x := 0, y := 0, width := srcImage1024.width, height := srcImage1024.height } ∧
    MipMapChunk.construct (fun _ => NppStatus.err (-7)) (fun w => w * 4) srcImage1024
        srcImage1024.width srcImage1024.height { id := 0 } NPPI_INTER_LINEAR =
      Except.error (NppStatus.err (-7)) :=
  ⟨(C7_full_extent_rois_default_linear srcImage1024 512 512 2048 { id := 0 }
      NPPI_INTER_LINEAR).1,
   (C7_full_extent_rois_default_linear srcImage1024 512 512 2048 { id := 0 }
      NPPI_INTER_LINEAR).2.2.2.2 (fun _ => NppStatus.err (-7)) (fun w => w * 4) (by decide)⟩

/-- C8: when the resize primitive reports a non-success status, the
constructor propagates exactly that status as an error (no retry, no
fallback), and a normally completed construction implies the primitive
reported success. -/
theorem C8_resize_failure_propagates (nppiResize : ResizeArgs → NppStatus)
    (devPitch : Int → Int) (srcImage : ImageNPP_8u_C4) (width height : Int)
    (streamCtx : NppStreamContext) (eInterpolation : Int) :
    (nppiResize (MipMapChunk.resizeArgs srcImage width height streamCtx eInterpolation
        (devPitch width)) ≠ NppStatus.success →
      MipMapChunk.construct nppiResize devPitch srcImage width height streamCtx
          eInterpolation =
        Except.error (nppiResize (MipMapChunk.resizeArgs srcImage width height streamCtx
          eInterpolation (devPitch width)))) ∧
    (∀ c, MipMapChunk.construct nppiResize devPitch srcImage width height streamCtx
        eInterpolation = Except.ok c →
      nppiResize (MipMapChunk.resizeArgs srcImage width height streamCtx eInterpolation
        (devPitch width)) = NppStatus.success) := by
  constructor
  · intro hne
    unfold MipMapChunk.construct NPP_CHECK_NPP
    dsimp only
    rw [if_neg hne]
  · intro c hok
    by_cases hs : nppiResize (MipMapChunk.resizeArgs srcImage width height streamCtx
        eInterpolation (devPitch width)) = NppStatus.success
    · exact hs
    · unfold MipMapChunk.construct NPP_CHECK_NPP at hok
      dsimp only at hok
      rw [if_neg hs] at hok
      exact Except.noConfusion hok

theorem C8_resize_failure_propagates_witness :
    MipMapChunk.construct (fun _ => NppStatus.err (-1000)) (fun w => w * 4) srcImage1024
        512 512 { id := 0 } NPPI_INTER_LINEAR =
      Except.error (NppStatus.err (-1000)) :=
  (C8_resize_failure_propagates (fun _ => NppStatus.err (-1000)) (fun w => w * 4)
    srcImage1024 512 512 { id := 0 } NPPI_INTER_LINEAR).1 (by decide)
